import Mathlib

/-!
Shallow embedding of the warranty-analyzer extraction core
(`app/warranty_analyzer.py`, `app/document_processor.py`, `app/models.py`)
and proofs of the specification claims about it.

Python values produced by `json.loads` are modelled by the inductive type
`Json`; floats are modelled by exact rationals (with distinguished
constructors for the `NaN` / `Infinity` constants that Python's `json`
accepts by default).  Python `str` is modelled by Lean `String` (a sequence
of code points, like Python), and `len` by the number of code points.
-/

/-- A Python value as produced by `json.loads` (and the plain Python
defaults the parser substitutes).  `nan` and `inf` model the non-finite
float constants Python's `json` accepts; finite floats and ints are both
modelled as exact rationals. -/
inductive Json where
  | null
  | bool (b : Bool)
  | num (q : Rat)
  | nan
  | inf (negative : Bool)
  | str (s : String)
  | arr (elems : List Json)
  | obj (members : List (String × Json))

/-- Membership lookup in a decoded JSON object, modelling Python `dict`
construction (later duplicate keys overwrite earlier ones, so the last
binding wins) followed by `dict.get k`. -/
def jget (members : List (String × Json)) (k : String) : Option Json :=
  match members with
  | [] => none
  | (k', v) :: rest =>
      match jget rest k with
      | some w => some w
      | none => if k' = k then some v else none

/-- `dict.get k default`: the stored value when the key is present, the
default otherwise. -/
def jgetD (members : List (String × Json)) (k : String) (d : Json) : Json :=
  (jget members k).getD d

/-- The whitespace characters Python's `str.strip()` removes (ASCII
fragment; the Unicode space classes are not reachable from the inputs the
pipeline builds). -/
def isPySpace (c : Char) : Bool :=
  c = ' ' || c = '\t' || c = '\n' || c = '\r' || c = '\x0b' || c = '\x0c'

/-- Python `str.strip()`. -/
def pyStrip (s : String) : String :=
  String.mk (((s.data.dropWhile isPySpace).reverse.dropWhile isPySpace).reverse)

/-- Python `sep.join(parts)`. -/
def pyJoin (sep : String) : List String → String
  | [] => ""
  | [x] => x
  | x :: y :: rest => x ++ sep ++ pyJoin sep (y :: rest)

/-- Python `len` on a string: the number of code points. -/
def pyLen (s : String) : Nat := s.data.length

/-! ### `re.search(r"\x7b.*\x7d", text, re.DOTALL)`

With `DOTALL`, the pattern matches from the leftmost opening brace to the
last closing brace of the whole text, provided one exists after it;
`_parse_analysis_response` falls back to the whole reply when there is no
match. -/

/-- Index of the first opening brace, if any. -/
def firstOpenBrace (cs : List Char) : Option Nat :=
  cs.findIdx? (fun c => c = '\x7b')

/-- Index of the last closing brace, if any. -/
def lastCloseBrace (cs : List Char) : Option Nat :=
  match (cs.reverse.findIdx? (fun c => c = '\x7d')) with
  | some k => some (cs.length - 1 - k)
  | none => none

/-- The candidate JSON payload `_parse_analysis_response` extracts from the
raw reply: the span of the greedy `\x7b.*\x7d` match when it exists, the
whole reply otherwise. -/
def extractJsonCandidate (s : String) : String :=
  match firstOpenBrace s.data, lastCloseBrace s.data with
  | some i, some j =>
      if i < j then String.mk ((s.data.drop i).take (j - i + 1)) else s
  | _, _ => s

/-! ### `json.loads`

A model of CPython's `json.loads` with default arguments: the RFC 8259
grammar plus the `NaN` / `Infinity` / `-Infinity` constants, strings with
standard escapes and a strict ban on raw control characters, no leading
zeros in numbers, whitespace `" \t\n\r"`, and the requirement that the
whole input be consumed.  Failure (`none`) models `json.JSONDecodeError`. -/

/-- The JSON whitespace set Python's decoder skips. -/
def isJsonWs (c : Char) : Bool :=
  c = ' ' || c = '\t' || c = '\n' || c = '\r'

def skipJsonWs (cs : List Char) : List Char :=
  cs.dropWhile isJsonWs

def isDigitCh (c : Char) : Bool := '0' ≤ c && c ≤ '9'

def digitVal (c : Char) : Nat := c.toNat - '0'.toNat

/-- Value of one hexadecimal digit (`0-9`, `a-f`, `A-F`), by code point. -/
def hexDigitVal (c : Char) : Option Nat :=
  let n := c.toNat
  if 48 ≤ n ∧ n ≤ 57 then some (n - 48)
  else if 97 ≤ n ∧ n ≤ 102 then some (n - 87)
  else if 65 ≤ n ∧ n ≤ 70 then some (n - 55)
  else none

/-- Longest digit run at the head of the input, with its value. -/
def grabDigits : List Char → List Char × List Char
  | [] => ([], [])
  | c :: cs =>
      if isDigitCh c then
        let (ds, rest) := grabDigits cs
        (c :: ds, rest)
      else ([], c :: cs)

def digitsToNat (ds : List Char) : Nat :=
  ds.foldl (fun acc c => acc * 10 + digitVal c) 0

/-- The integer part of a JSON number: `0`, or a nonzero leading digit
followed by more digits (leading zeros are a syntax error). -/
def parseIntPart : List Char → Option (Nat × List Char)
  | [] => none
  | c :: cs =>
      if c = '0' then some (0, cs)
      else if isDigitCh c then
        let (ds, rest) := grabDigits cs
        some (digitsToNat (c :: ds), rest)
      else none

/-- A JSON number per `(-?(?:0|[1-9]\d*))(\.\d+)?([eE][-+]?\d+)?`, as an
exact rational (built with `mkRat`, which the kernel evaluates). -/
def parseJsonNumber (cs : List Char) : Option (Rat × List Char) := do
  let (neg, cs1) :=
    match cs with
    | '-' :: rest => (true, rest)
    | _ => (false, cs)
  let (ip, cs2) ← parseIntPart cs1
  let (fracDs, cs3) :=
    match cs2 with
    | '.' :: rest =>
        match grabDigits rest with
        | ([], _) => ([], cs2)
        | (ds, rest') => (ds, rest')
    | _ => ([], cs2)
  -- a bare '.' with no digit after it is not part of the number
  let (expVal, cs4) :=
    match cs3 with
    | 'e' :: rest | 'E' :: rest =>
        let (esign, rest1) : Int × List Char :=
          match rest with
          | '+' :: r => (1, r)
          | '-' :: r => (-1, r)
          | _ => (1, rest)
        match grabDigits rest1 with
        | ([], _) => ((0 : Int), cs3)
        | (ds, rest2) => (esign * (digitsToNat ds : Int), rest2)
    | _ => ((0 : Int), cs3)
  let mantissa : Int := (ip * 10 ^ fracDs.length + digitsToNat fracDs : Nat)
  let signed : Int := if neg then -mantissa else mantissa
  let e : Int := expVal - (fracDs.length : Int)
  let q : Rat :=
    if 0 ≤ e then mkRat (signed * ((10 ^ e.toNat : Nat) : Int)) 1
    else mkRat signed (10 ^ (-e).toNat)
  some (q, cs4)

/-- String body after the opening quote: ordinary characters (raw control
characters below `0x20` are rejected, as in Python's strict mode), the
single-character escapes, and `\uXXXX` with surrogate-pair combination.
`fuel` only makes the recursion structural; every step consumes at least
one input character, so `input length + 1` is always enough.
A high surrogate followed by `\u` and four non-hex characters is a decode
error (CPython decodes the second escape eagerly); a high surrogate whose
follower is a valid `\uXXXX` outside the low-surrogate range is kept alone
and the follower is reprocessed as an ordinary escape. -/
def parseJsonStringBody (fuel : Nat) (acc : List Char) (cs : List Char) :
    Option (String × List Char) :=
  match fuel with
  | 0 => none
  | fuel + 1 =>
    match cs with
    | [] => none
    | '"' :: rest => some (String.mk acc.reverse, rest)
    | '\\' :: esc =>
        (match esc with
         | '"' :: r => parseJsonStringBody fuel ('"' :: acc) r
         | '\\' :: r => parseJsonStringBody fuel ('\\' :: acc) r
         | '/' :: r => parseJsonStringBody fuel ('/' :: acc) r
         | 'b' :: r => parseJsonStringBody fuel ('\x08' :: acc) r
         | 'f' :: r => parseJsonStringBody fuel ('\x0c' :: acc) r
         | 'n' :: r => parseJsonStringBody fuel ('\n' :: acc) r
         | 'r' :: r => parseJsonStringBody fuel ('\r' :: acc) r
         | 't' :: r => parseJsonStringBody fuel ('\t' :: acc) r
         | 'u' :: a :: b :: c :: d :: r =>
             (match hexDigitVal a, hexDigitVal b, hexDigitVal c, hexDigitVal d with
              | some va, some vb, some vc, some vd =>
                  let n := ((va * 16 + vb) * 16 + vc) * 16 + vd
                  if 0xD800 ≤ n ∧ n ≤ 0xDBFF then
                    -- try to combine a following low surrogate
                    match r with
                    | '\\' :: 'u' :: a2 :: b2 :: c2 :: d2 :: r2 =>
                        (match hexDigitVal a2, hexDigitVal b2, hexDigitVal c2, hexDigitVal d2 with
                         | some wa, some wb, some wc, some wd =>
                             let m := ((wa * 16 + wb) * 16 + wc) * 16 + wd
                             if 0xDC00 ≤ m ∧ m ≤ 0xDFFF then
                               parseJsonStringBody fuel
                                 (Char.ofNat (0x10000 + (n - 0xD800) * 0x400 + (m - 0xDC00)) :: acc) r2
                             else
                               parseJsonStringBody fuel (Char.ofNat n :: acc)
                                 ('\\' :: 'u' :: a2 :: b2 :: c2 :: d2 :: r2)
                         | _, _, _, _ => none)
                    | _ => parseJsonStringBody fuel (Char.ofNat n :: acc) r
                  else
                    parseJsonStringBody fuel (Char.ofNat n :: acc) r
              | _, _, _, _ => none)
         | _ => none)
    | c :: rest =>
        if c.toNat < 0x20 then none
        else parseJsonStringBody fuel (c :: acc) rest

mutual
/-- One JSON value at the head of the input (whitespace already skipped by
the caller). -/
def parseJsonValue (fuel : Nat) (cs : List Char) : Option (Json × List Char) :=
  match fuel with
  | 0 => none
  | fuel + 1 =>
    match cs with
    | '"' :: rest =>
        match parseJsonStringBody (rest.length + 1) [] rest with
        | some (s, rest') => some (.str s, rest')
        | none => none
    | '\x7b' :: rest =>
        (match skipJsonWs rest with
         | '\x7d' :: rest' => some (.obj [], rest')
         | other =>
             match parseJsonMembers fuel other with
             | some (ms, rest') => some (.obj ms, rest')
             | none => none)
    | '[' :: rest =>
        (match skipJsonWs rest with
         | ']' :: rest' => some (.arr [], rest')
         | other =>
             match parseJsonElems fuel other with
             | some (es, rest') => some (.arr es, rest')
             | none => none)
    | 'n' :: 'u' :: 'l' :: 'l' :: rest => some (.null, rest)
    | 't' :: 'r' :: 'u' :: 'e' :: rest => some (.bool true, rest)
    | 'f' :: 'a' :: 'l' :: 's' :: 'e' :: rest => some (.bool false, rest)
    | 'N' :: 'a' :: 'N' :: rest => some (.nan, rest)
    | 'I' :: 'n' :: 'f' :: 'i' :: 'n' :: 'i' :: 't' :: 'y' :: rest =>
        some (.inf false, rest)
    | '-' :: 'I' :: 'n' :: 'f' :: 'i' :: 'n' :: 'i' :: 't' :: 'y' :: rest =>
        some (.inf true, rest)
    | other =>
        match parseJsonNumber other with
        | some (q, rest) => some (.num q, rest)
        | none => none

/-- One-or-more comma-separated array elements, up to and including the
closing bracket. -/
def parseJsonElems (fuel : Nat) (cs : List Char) : Option (List Json × List Char) :=
  match fuel with
  | 0 => none
  | fuel + 1 =>
    match parseJsonValue fuel (skipJsonWs cs) with
    | none => none
    | some (v, rest) =>
        match skipJsonWs rest with
        | ',' :: rest' =>
            (match parseJsonElems fuel rest' with
             | some (vs, rest'') => some (v :: vs, rest'')
             | none => none)
        | ']' :: rest' => some ([v], rest')
        | _ => none

/-- One-or-more members of an object, up to and including the closing
brace (the empty object is handled by the caller). -/
def parseJsonMembers (fuel : Nat) (cs : List Char) : Option (List (String × Json) × List Char) :=
  match fuel with
  | 0 => none
  | fuel + 1 =>
    match cs with
    | '"' :: rest =>
        (match parseJsonStringBody (rest.length + 1) [] rest with
         | none => none
         | some (key, rest1) =>
             match skipJsonWs rest1 with
             | ':' :: rest2 =>
                 (match parseJsonValue fuel (skipJsonWs rest2) with
                  | none => none
                  | some (v, rest3) =>
                      match skipJsonWs rest3 with
                      | ',' :: rest4 =>
                          (match parseJsonMembers fuel (skipJsonWs rest4) with
                           | some (ms, rest5) => some ((key, v) :: ms, rest5)
                           | none => none)
                      | '\x7d' :: rest4 => some ([(key, v)], rest4)
                      | _ => none)
             | _ => none)
    | _ => none
end

/-- `json.loads`: decode the whole string, or fail (`JSONDecodeError`). -/
def jsonLoads (s : String) : Option Json :=
  let cs := skipJsonWs s.data
  match parseJsonValue (2 * cs.length + 2) cs with
  | some (v, rest) =>
      if skipJsonWs rest = [] then some v else none
  | none => none

/-! ### `warranty_analyzer.WarrantyAnalyzer._parse_analysis_response`

The function's `try` block catches only `json.JSONDecodeError`; every
other exception the body can raise (an `AttributeError` from calling
`.get` on a decoded non-`dict`, a `TypeError` from ordering a non-number
against `0.0`) propagates to the caller, and `analyze_warranty` re-raises
it.  `Except` errors model those propagating exceptions. -/

/-- An exception propagating out of the response-parsing code. -/
inductive PyErr where
  | attributeError
  | typeError
  | validationError
deriving Repr, DecidableEq

/-- The dictionary `_parse_analysis_response` returns: every field holds
the Python value taken from the decoded payload or the hard-coded
default. -/
structure ParsedDict where
  summary : Json
  duration : Json
  duration_months : Json
  coverage_items : Json
  exclusions : Json
  limitations : Json
  claim_procedure : Json
  claim_contacts : Json
  required_docs : Json
  critical_dates : Json
  transferable : Json
  extended_options : Json
  critical_highlights : Json
  warning_highlights : Json
  info_highlights : Json
  confidence_score : Json

/-- The "minimal valid response" returned when `json.loads` raises
`JSONDecodeError`. -/
def fallbackAnalysis : ParsedDict where
  summary := .str "Failed to analyze warranty contract"
  duration := .null
  duration_months := .null
  coverage_items := .arr []
  exclusions := .arr []
  limitations := .arr []
  claim_procedure := .null
  claim_contacts := .obj []
  required_docs := .arr []
  critical_dates := .arr []
  transferable := .null
  extended_options := .null
  critical_highlights := .arr []
  warning_highlights := .arr []
  info_highlights := .arr []
  confidence_score := .num (mkRat 1 10)

/-- The dictionary built from a decoded payload: `data.get(key)` with the
per-field default from the source. -/
def buildAnalysisDict (kvs : List (String × Json)) : ParsedDict where
  summary := jgetD kvs "summary" (.str "")
  duration := jgetD kvs "duration" .null
  duration_months := jgetD kvs "duration_months" .null
  coverage_items := jgetD kvs "coverage_items" (.arr [])
  exclusions := jgetD kvs "exclusions" (.arr [])
  limitations := jgetD kvs "limitations" (.arr [])
  claim_procedure := jgetD kvs "claim_procedure" .null
  claim_contacts := jgetD kvs "claim_contacts" (.obj [])
  required_docs := jgetD kvs "required_docs" (.arr [])
  critical_dates := jgetD kvs "critical_dates" (.arr [])
  transferable := jgetD kvs "transferable" .null
  extended_options := jgetD kvs "extended_options" .null
  critical_highlights := jgetD kvs "critical_highlights" (.arr [])
  warning_highlights := jgetD kvs "warning_highlights" (.arr [])
  info_highlights := jgetD kvs "info_highlights" (.arr [])
  confidence_score := jgetD kvs "confidence_score" (.num (mkRat 1 2))

/-- The Python expression `0.0 <= v <= 1.0`: `some b` when the chained
comparison evaluates to `b`, `none` when it raises `TypeError`.  Python
booleans are numbers (`False = 0`, `True = 1`), so both compare within
range; comparisons against `nan` are false, and infinities fall outside
the range. -/
def pyWithin01 : Json → Option Bool
  | .num q => some (decide (0 ≤ q ∧ q ≤ 1))
  | .bool _ => some true
  | .nan => some false
  | .inf _ => some false
  | _ => none

/-- `_parse_analysis_response`: extract the brace-to-brace candidate,
decode it, populate defaults, and re-validate the confidence score;
`JSONDecodeError` alone is absorbed into the fallback dictionary. -/
def parse_analysis_response (response_text : String) : Except PyErr ParsedDict :=
  let json_str := extractJsonCandidate response_text
  match jsonLoads json_str with
  | none => .ok fallbackAnalysis
  | some (.obj kvs) =>
      let result := buildAnalysisDict kvs
      match pyWithin01 result.confidence_score with
      | none => .error .typeError
      | some true => .ok result
      | some false => .ok { result with confidence_score := .num (mkRat 1 2) }
  | some _ => .error .attributeError

/-! ### `models.ClaudeAnalysisResult` (pydantic validation)

`analyze_warranty` builds `ClaudeAnalysisResult(**analysis_data)` from the
parsed dictionary; pydantic checks each field against its annotation and
raises `ValidationError` (modelled as `none`) on a mismatch.  The lax
string-to-number coercions pydantic also performs are not needed by any
value `_parse_analysis_response` produces from the claims' inputs and are
not modelled. -/

/-- A `str` field. -/
def asStr : Json → Option String
  | .str s => some s
  | _ => none

/-- A `str | None` field. -/
def asOptStr : Json → Option (Option String)
  | .null => some none
  | .str s => some (some s)
  | _ => none

/-- An `int | None` field; a float with integral value is accepted. -/
def asOptInt : Json → Option (Option Int)
  | .null => some none
  | .num q => if q.den = 1 then some (some q.num) else none
  | _ => none

/-- A `list[str]` field. -/
def asStrList : Json → Option (List String)
  | .arr es => es.mapM asStr
  | _ => none

/-- A `dict[str, Any]` field. -/
def asObjMap : Json → Option (List (String × Json))
  | .obj ms => some ms
  | _ => none

/-- A `list[dict[str, Any]]` field. -/
def asObjList : Json → Option (List (List (String × Json)))
  | .arr es => es.mapM asObjMap
  | _ => none

/-- A `bool | None` field. -/
def asOptBool : Json → Option (Option Bool)
  | .null => some none
  | .bool b => some (some b)
  | _ => none

/-- A `float` field carrying `Field(ge=0.0, le=1.0)`. -/
def asUnitFloat : Json → Option Rat
  | .num q => if 0 ≤ q ∧ q ≤ 1 then some q else none
  | _ => none

/-- The typed analysis result (`models.ClaudeAnalysisResult`). -/
structure ClaudeAnalysisResult where
  summary : String
  duration : Option String
  duration_months : Option Int
  coverage_items : List String
  exclusions : List String
  limitations : List String
  claim_procedure : Option String
  claim_contacts : List (String × Json)
  required_docs : List String
  critical_dates : List (List (String × Json))
  transferable : Option Bool
  extended_options : Option String
  critical_highlights : List (List (String × Json))
  warning_highlights : List (List (String × Json))
  info_highlights : List (List (String × Json))
  confidence_score : Rat

/-- `ClaudeAnalysisResult(**analysis_data)`: pydantic validation of each
field, `none` modelling `ValidationError`. -/
def mkClaudeAnalysisResult (d : ParsedDict) : Option ClaudeAnalysisResult := do
  let summary ← asStr d.summary
  let duration ← asOptStr d.duration
  let duration_months ← asOptInt d.duration_months
  let coverage_items ← asStrList d.coverage_items
  let exclusions ← asStrList d.exclusions
  let limitations ← asStrList d.limitations
  let claim_procedure ← asOptStr d.claim_procedure
  let claim_contacts ← asObjMap d.claim_contacts
  let required_docs ← asStrList d.required_docs
  let critical_dates ← asObjList d.critical_dates
  let transferable ← asOptBool d.transferable
  let extended_options ← asOptStr d.extended_options
  let critical_highlights ← asObjList d.critical_highlights
  let warning_highlights ← asObjList d.warning_highlights
  let info_highlights ← asObjList d.info_highlights
  let confidence_score ← asUnitFloat d.confidence_score
  some {
    summary := summary, duration := duration, duration_months := duration_months,
    coverage_items := coverage_items, exclusions := exclusions, limitations := limitations,
    claim_procedure := claim_procedure, claim_contacts := claim_contacts,
    required_docs := required_docs, critical_dates := critical_dates,
    transferable := transferable, extended_options := extended_options,
    critical_highlights := critical_highlights, warning_highlights := warning_highlights,
    info_highlights := info_highlights, confidence_score := confidence_score }

/-- The parsing stage of `analyze_warranty` applied to the raw model
reply: `_parse_analysis_response` followed by
`ClaudeAnalysisResult(**analysis_data)` — the spec's
`ResponseParser.parse`.  An `Except.error` models an exception reaching
(and re-raised by) `analyze_warranty`. -/
def parseReply (response_text : String) : Except PyErr ClaudeAnalysisResult :=
  match parse_analysis_response response_text with
  | .error e => .error e
  | .ok d =>
      match mkClaudeAnalysisResult d with
      | some res => .ok res
      | none => .error .validationError

/-- The fallback dictionary passes pydantic validation; this is the
`ExtractionResult` produced for an undecodable reply. -/
def typedFallback : ClaudeAnalysisResult where
  summary := "Failed to analyze warranty contract"
  duration := none
  duration_months := none
  coverage_items := []
  exclusions := []
  limitations := []
  claim_procedure := none
  claim_contacts := []
  required_docs := []
  critical_dates := []
  transferable := none
  extended_options := none
  critical_highlights := []
  warning_highlights := []
  info_highlights := []
  confidence_score := mkRat 1 10

/-! ### `warranty_analyzer.WarrantyAnalyzer.extract_warranty_dates`

Dates are modelled as integers (days on a time axis); `timedelta(days=n)`
is addition of `n`.  `datetime.now()` enters as an explicit `now`
parameter; a `datetime` object is always truthy, so
`purchase_date or datetime.now()` is `purchase_date` exactly when it is
not `None`. -/
def extract_warranty_dates (duration_months : Option Int)
    (purchase_date : Option Int) (now : Int) : Option Int × Option Int :=
  match duration_months with
  | none => (none, none)
  | some m =>
      let start_date := purchase_date.getD now
      (some start_date, some (start_date + m * 30))

/-! ### `document_processor.DocumentProcessor`

The PDF/image decoding libraries and the vision model are external
capabilities, so they enter as explicit function arguments:

* `pdfOf`    — `PyPDF2.PdfReader` plus `pdf2image.convert_from_bytes`,
  summarised as the per-page native texts and the rasterized page images
  a given byte string yields;
* `vision`   — the concatenated text blocks of one Claude Vision call on
  an image (the code then strips the result);
* `decode` / `encode` — `PIL.Image.open` (with the mode and pixel size of
  the decoded image) and PNG re-encoding, each allowed to fail.

Images and raw files are byte strings, modelled as lists of byte values. -/

/-- Raw file/image content. -/
abbrev Bytes := List Nat

/-- What the PDF libraries yield for one document: `pages` are the native
`page.extract_text()` results in order, `images` the rasterized page
images `convert_from_bytes` produces. -/
structure PdfDoc where
  pages : List String
  images : List Bytes

/-- `models.OCRResult`. -/
structure OCRResult where
  text : String
  confidence : Rat
  page_count : Nat

/-- `models.DocumentType`. -/
inductive DocumentType where
  | PDF
  | PNG
  | JPEG
  | JPG
deriving Repr, DecidableEq

/-- The `.value` of each `DocumentType` member. -/
def DocumentType.value : DocumentType → String
  | .PDF => "application/pdf"
  | .PNG => "image/png"
  | .JPEG => "image/jpeg"
  | .JPG => "image/jpg"

/-- The `ValueError` raised for an unrecognised MIME type. -/
inductive DocErr where
  | unsupportedType (mime : String)
deriving Repr, DecidableEq

/-- `_extract_text_with_claude_vision`: one vision call, stripped. -/
def extract_text_with_claude_vision (vision : Bytes → String) (image_bytes : Bytes) : String :=
  pyStrip (vision image_bytes)

/-- `f"--- Page {n} ---\n{text}"`. -/
def pageMarker (n : Nat) (body : String) : String :=
  "--- Page " ++ toString n ++ " ---\n" ++ body

/-- The native-extraction loop of `_process_pdf`: pages are numbered from
1 counting every page, but only pages whose text is non-blank after
stripping contribute a part. -/
def nativePageParts : List String → Nat → List String
  | [], _ => []
  | t :: ts, n =>
      if pyStrip t = "" then nativePageParts ts (n + 1)
      else pageMarker n t :: nativePageParts ts (n + 1)

/-- `extracted_text` as `_process_pdf` builds it. -/
def nativeExtractedText (doc : PdfDoc) : String :=
  pyJoin "\n\n" (nativePageParts doc.pages 1)

/-- The OCR loop of `_process_scanned_pdf` over the images it was given
(the caller passes `images[:10]`), numbered from 1. -/
def ocrPageParts (vision : Bytes → String) : List Bytes → Nat → List String
  | [], _ => []
  | img :: rest, n =>
      pageMarker n (extract_text_with_claude_vision vision img)
        :: ocrPageParts vision rest (n + 1)

/-- `extracted_text` as `_process_scanned_pdf` builds it: only the first
10 rasterized images are submitted to vision OCR. -/
def ocrExtractedText (vision : Bytes → String) (doc : PdfDoc) : String :=
  pyJoin "\n\n" (ocrPageParts vision (doc.images.take 10) 1)

/-- `_process_scanned_pdf` (successful-rasterization path; the
`pdf2image` `ImportError` branch raises and is outside this fragment).
Note `page_count` is `len(images)` — all rasterized images, not the
OCR-processed prefix. -/
def process_scanned_pdf (vision : Bytes → String) (doc : PdfDoc) : OCRResult :=
  let extracted_text := ocrExtractedText vision doc
  { text := pyStrip extracted_text
    confidence := if 100 < pyLen extracted_text then mkRat 85 100 else mkRat 6 10
    page_count := doc.images.length }

/-- `_process_pdf`: native extraction, falling back to the scanned path
when the stripped text is under 50 characters. -/
def process_pdf (vision : Bytes → String) (doc : PdfDoc) : OCRResult :=
  let extracted_text := nativeExtractedText doc
  if pyLen (pyStrip extracted_text) < 50 then
    process_scanned_pdf vision doc
  else
    { text := pyStrip extracted_text
      confidence := if 100 < pyLen extracted_text then mkRat 95 100 else mkRat 7 10
      page_count := doc.pages.length }

/-- The decoded form `PIL.Image.open` yields: a mode string and pixel
dimensions (the only attributes `_optimize_image` inspects). -/
structure PILImage where
  mode : String
  width : Nat
  height : Nat
deriving Repr, DecidableEq

/-- The transparency/palette flattening step: `RGBA`, `LA` and `P` images
are pasted onto an opaque white RGB background of the same size. -/
def flattenAlpha (img : PILImage) : PILImage :=
  if img.mode = "RGBA" ∨ img.mode = "LA" ∨ img.mode = "P" then
    { img with mode := "RGB" }
  else img

/-- The resize step: when the longest dimension exceeds 2048, scale both
dimensions by `2048 / max` (Python computes `int(dim * ratio)` in floating
point; for these magnitudes that is truncation, i.e. Nat division). -/
def boundDimensions (img : PILImage) : PILImage :=
  let maxDimension := max img.width img.height
  if 2048 < maxDimension then
    { img with
        width := img.width * 2048 / maxDimension
        height := img.height * 2048 / maxDimension }
  else img

/-- `_optimize_image`: the whole body sits in a `try` whose handler
returns the original bytes, so a failure of either the decode or the
re-encode yields the input unchanged. -/
def optimize_image (decode : Bytes → Option PILImage) (encode : PILImage → Option Bytes)
    (image_bytes : Bytes) : Bytes :=
  match decode image_bytes with
  | none => image_bytes
  | some image =>
      match encode (boundDimensions (flattenAlpha image)) with
      | some out => out
      | none => image_bytes

/-- `_process_image_with_claude`: optimize, one vision call, fixed
confidence policy on the extracted length. -/
def process_image_with_claude (vision : Bytes → String)
    (decode : Bytes → Option PILImage) (encode : PILImage → Option Bytes)
    (file_content : Bytes) : OCRResult :=
  let optimized_image := optimize_image decode encode file_content
  let extracted_text := extract_text_with_claude_vision vision optimized_image
  { text := pyStrip extracted_text
    confidence := if 50 < pyLen extracted_text then mkRat 88 100 else mkRat 65 100
    page_count := 1 }

/-- `process_document`: strategy dispatch on the exact MIME string; any
other value raises `ValueError` before touching the content. -/
def process_document (pdfOf : Bytes → PdfDoc) (vision : Bytes → String)
    (decode : Bytes → Option PILImage) (encode : PILImage → Option Bytes)
    (file_content : Bytes) (mime_type : String) : Except DocErr OCRResult :=
  if mime_type = DocumentType.PDF.value then
    .ok (process_pdf vision (pdfOf file_content))
  else if mime_type = DocumentType.PNG.value ∨ mime_type = DocumentType.JPEG.value
      ∨ mime_type = DocumentType.JPG.value then
    .ok (process_image_with_claude vision decode encode file_content)
  else
    .error (.unsupportedType mime_type)

/-! ### Auxiliary predicates and fixtures used by the claim statements -/

/-- The numeric value Python sees in a confidence slot: a float/int
directly, a bool as `0`/`1` (Python bools are ints). -/
def scoreValue : Json → Option Rat
  | .num q => some q
  | .bool b => some (if b then 1 else 0)
  | _ => none

/-- Every field of the parsed dictionary other than the confidence score
has the shape its `ClaudeAnalysisResult` annotation accepts. -/
def dictWellTyped (d : ParsedDict) : Bool :=
  (asStr d.summary).isSome &&
  ((asOptStr d.duration).isSome &&
  ((asOptInt d.duration_months).isSome &&
  ((asStrList d.coverage_items).isSome &&
  ((asStrList d.exclusions).isSome &&
  ((asStrList d.limitations).isSome &&
  ((asOptStr d.claim_procedure).isSome &&
  ((asObjMap d.claim_contacts).isSome &&
  ((asStrList d.required_docs).isSome &&
  ((asObjList d.critical_dates).isSome &&
  ((asOptBool d.transferable).isSome &&
  ((asOptStr d.extended_options).isSome &&
  ((asObjList d.critical_highlights).isSome &&
  ((asObjList d.warning_highlights).isSome &&
  (asObjList d.info_highlights).isSome)))))))))))))

/-- Confidence slots that survive both the in-range re-validation and the
pydantic `float` annotation: numbers (out-of-range ones are replaced by
`0.5` first), and the non-finite constants (always replaced by `0.5`).
Booleans pass the range check but pydantic rejects them for a `float`
field, and any other shape raises `TypeError` in the range check. -/
def scoreFieldOk : Json → Bool
  | .num _ => true
  | .nan => true
  | .inf _ => true
  | _ => false

/-- A PDF whose rasterization yields 15 page images (all-blank native
text, so the scanned path is taken). -/
def fifteenPageDoc : PdfDoc where
  pages := []
  images := List.replicate 15 []

/-- A PDF whose native text strips to fewer than 50 characters. -/
def docShortNative : PdfDoc where
  pages := ["tiny"]
  images := [[1], [2]]

/-- A PDF with one 60-character page of native text (so the stripped
native text is 75 characters with its page marker). -/
def docLongNative : PdfDoc where
  pages := ["aaaaaaaaaaaaaaaaaaaaaaaaaaaaaaaaaaaaaaaaaaaaaaaaaaaaaaaaaaaa"]
  images := []

/-! ### Helper lemmas -/

/-- `ocrPageParts` only queries the vision capability on the images it is
given. -/
theorem ocrPageParts_congr (vision vision' : Bytes → String) :
    ∀ (imgs : List Bytes) (n : Nat),
      (∀ img ∈ imgs, vision img = vision' img) →
      ocrPageParts vision imgs n = ocrPageParts vision' imgs n := by
  intro imgs
  induction imgs with
  | nil => intro n _; rfl
  | cons i rest ih =>
      intro n h
      have hi : vision i = vision' i := h i (List.mem_cons_self i rest)
      have hrest : ∀ img ∈ rest, vision img = vision' img :=
        fun img hm => h img (List.mem_cons_of_mem i hm)
      simp [ocrPageParts, extract_text_with_claude_vision, hi, ih (n + 1) hrest]

/-- After `boundDimensions`, no dimension exceeds 2048. -/
theorem boundDimensions_max_le (img : PILImage) :
    max (boundDimensions img).width (boundDimensions img).height ≤ 2048 := by
  unfold boundDimensions
  by_cases h : 2048 < max img.width img.height
  · have hm0 : 0 < max img.width img.height := Nat.lt_trans (by norm_num) h
    have bound : ∀ d : Nat, d ≤ max img.width img.height →
        d * 2048 / max img.width img.height ≤ 2048 := by
      intro d hd
      calc d * 2048 / max img.width img.height
          ≤ max img.width img.height * 2048 / max img.width img.height :=
            Nat.div_le_div_right (Nat.mul_le_mul_right _ hd)
        _ = 2048 := Nat.mul_div_cancel_left _ hm0
    simp only [h, if_true]
    exact max_le (bound _ (le_max_left _ _)) (bound _ (le_max_right _ _))
  · simp only [h, if_false]
    exact Nat.not_lt.mp h

/-- `boundDimensions` never changes the mode. -/
theorem boundDimensions_mode (img : PILImage) :
    (boundDimensions img).mode = img.mode := by
  unfold boundDimensions
  by_cases h : 2048 < max img.width img.height <;> simp [h]

/-- After `flattenAlpha`, the mode is outside the transparent/palette
set. -/
theorem flattenAlpha_mode (img : PILImage) :
    (flattenAlpha img).mode ≠ "RGBA" ∧ (flattenAlpha img).mode ≠ "LA" ∧
      (flattenAlpha img).mode ≠ "P" := by
  unfold flattenAlpha
  by_cases h : img.mode = "RGBA" ∨ img.mode = "LA" ∨ img.mode = "P"
  · simp [h]
  · push_neg at h
    simp [h.1, h.2.1, h.2.2]

/-- When every field of the parsed dictionary is well-typed and the
confidence slot holds an in-range number, pydantic construction
succeeds. -/
theorem mkClaudeAnalysisResult_total (d : ParsedDict) (h : dictWellTyped d = true)
    (q : Rat) (hq : d.confidence_score = Json.num q) (h0 : 0 ≤ q) (h1 : q ≤ 1) :
    ∃ res, mkClaudeAnalysisResult d = some res := by
  unfold dictWellTyped at h
  simp only [Bool.and_eq_true] at h
  obtain ⟨hA, hB, hC, hD, hE, hF, hG, hH, hI, hJ, hK, hL, hM, hN, hO⟩ := h
  rw [Option.isSome_iff_exists] at hA hB hC hD hE hF hG hH hI hJ hK hL hM hN hO
  obtain ⟨v1, e1⟩ := hA
  obtain ⟨v2, e2⟩ := hB
  obtain ⟨v3, e3⟩ := hC
  obtain ⟨v4, e4⟩ := hD
  obtain ⟨v5, e5⟩ := hE
  obtain ⟨v6, e6⟩ := hF
  obtain ⟨v7, e7⟩ := hG
  obtain ⟨v8, e8⟩ := hH
  obtain ⟨v9, e9⟩ := hI
  obtain ⟨v10, e10⟩ := hJ
  obtain ⟨v11, e11⟩ := hK
  obtain ⟨v12, e12⟩ := hL
  obtain ⟨v13, e13⟩ := hM
  obtain ⟨v14, e14⟩ := hN
  obtain ⟨v15, e15⟩ := hO
  refine ⟨⟨v1, v2, v3, v4, v5, v6, v7, v8, v9, v10, v11, v12, v13, v14, v15, q⟩, ?_⟩
  simp [mkClaudeAnalysisResult, e1, e2, e3, e4, e5, e6, e7, e8, e9, e10, e11,
    e12, e13, e14, e15, hq, asUnitFloat, h0, h1]

/-! ### The claims -/

/-- C4: `extract_warranty_dates` (the spec's `computeDates`) returns
`(null, null)` whenever the duration is null, for every purchase date;
for a non-null duration `m` and purchase date `D` it returns
`(D, D + m*30 days)`, so 24 months give `D + 720 days`; the embedding is
a total function of its arguments (no I/O beyond the explicit `now`, no
failure mode). -/
theorem extract_warranty_dates_contract :
    (∀ (purchase_date : Option Int) (now : Int),
        extract_warranty_dates none purchase_date now = (none, none)) ∧
    (∀ (m d now : Int),
        extract_warranty_dates (some m) (some d) now = (some d, some (d + m * 30))) ∧
    (∀ (d now : Int),
        extract_warranty_dates (some 24) (some d) now = (some d, some (d + 720))) := by
  refine ⟨fun _ _ => rfl, fun _ _ _ => rfl, fun d now => ?_⟩
  show (some d, some (d + 24 * 30)) = (some d, some (d + 720))
  norm_num

/-- C10: a zero-month duration is not null, so
`extract_warranty_dates(0, D)` returns `(D, D)`; more generally every
non-null duration yields non-null dates `(start, start + m*30)` with
`start` the purchase date (or now), and only a null duration produces
`(null, null)`. -/
theorem extract_warranty_dates_zero_duration :
    (∀ (d now : Int), extract_warranty_dates (some 0) (some d) now = (some d, some d)) ∧
    (∀ (m : Int) (pd : Option Int) (now : Int),
        extract_warranty_dates (some m) pd now =
          (some (pd.getD now), some (pd.getD now + m * 30))) ∧
    (∀ (pd : Option Int) (now : Int), extract_warranty_dates none pd now = (none, none)) := by
  refine ⟨fun d now => ?_, fun _ _ _ => rfl, fun _ _ => rfl⟩
  show (some d, some (d + 0 * 30)) = (some d, some d)
  norm_num

/-- C9: the response-parsing stage is a pure function of the raw reply:
the embedding of `_parse_analysis_response` (and of the full parse
including result construction) is deterministic — two invocations on the
same reply are equal.  The Python body reads no mutable state besides
emitting log lines. -/
theorem parseReply_deterministic :
    ∀ reply : String,
      parseReply reply = parseReply reply ∧
      parse_analysis_response reply = parse_analysis_response reply :=
  fun _ => ⟨rfl, rfl⟩

/-- C7: a MIME type outside the four enumerated strings makes
`process_document` fail with the unsupported-type error, uniformly in the
file content and in every external capability — so no extraction work is
attempted and no strategy is silently chosen. -/
theorem process_document_rejects_unknown_type :
    ∀ (pdfOf : Bytes → PdfDoc) (vision : Bytes → String)
      (decode : Bytes → Option PILImage) (encode : PILImage → Option Bytes)
      (file_content : Bytes) (mime_type : String),
      mime_type ≠ DocumentType.PDF.value →
      mime_type ≠ DocumentType.PNG.value →
      mime_type ≠ DocumentType.JPEG.value →
      mime_type ≠ DocumentType.JPG.value →
      process_document pdfOf vision decode encode file_content mime_type =
        .error (.unsupportedType mime_type) := by
  intro pdfOf vision decode encode file_content mime_type h1 h2 h3 h4
  simp [process_document, h1, h2, h3, h4]

/-- C7 witness: `text/plain` is rejected at a concrete input. -/
theorem process_document_rejects_unknown_type_witness :
    process_document (fun _ => ⟨[], []⟩) (fun _ => "") (fun _ => none) (fun _ => none)
        [0] "text/plain" = .error (.unsupportedType "text/plain") :=
  process_document_rejects_unknown_type _ _ _ _ _ _
    (by decide) (by decide) (by decide) (by decide)

/-- C8: `optimize_image` never fails: when the decode or the re-encode of
the transformed image errors, the original bytes come back unchanged;
when both succeed, the result is the re-encoding of the flattened (no
transparency/palette mode left) and dimension-bounded (no side beyond
2048) image. -/
theorem optimize_image_best_effort :
    ∀ (decode : Bytes → Option PILImage) (encode : PILImage → Option Bytes) (b : Bytes),
      (decode b = none → optimize_image decode encode b = b) ∧
      (∀ img, decode b = some img →
          encode (boundDimensions (flattenAlpha img)) = none →
          optimize_image decode encode b = b) ∧
      (∀ img out, decode b = some img →
          encode (boundDimensions (flattenAlpha img)) = some out →
          optimize_image decode encode b = out ∧
          max (boundDimensions (flattenAlpha img)).width
              (boundDimensions (flattenAlpha img)).height ≤ 2048 ∧
          (boundDimensions (flattenAlpha img)).mode ≠ "RGBA" ∧
          (boundDimensions (flattenAlpha img)).mode ≠ "LA" ∧
          (boundDimensions (flattenAlpha img)).mode ≠ "P") := by
  intro decode encode b
  refine ⟨fun h => by simp [optimize_image, h], fun img h1 h2 => by simp [optimize_image, h1, h2],
    fun img out h1 h2 => ⟨by simp [optimize_image, h1, h2], boundDimensions_max_le _, ?_, ?_, ?_⟩⟩
  all_goals rw [boundDimensions_mode]
  · exact (flattenAlpha_mode img).1
  · exact (flattenAlpha_mode img).2.1
  · exact (flattenAlpha_mode img).2.2

/-- C8 witness: a decode failure returns the input, an encode failure
returns the input, and a successful 4096×1024 RGBA decode is re-encoded
flattened and scaled to 2048×512. -/
theorem optimize_image_best_effort_witness :
    optimize_image (fun _ => none) (fun _ => none) [7] = [7] ∧
    optimize_image (fun _ => some ⟨"RGBA", 4096, 1024⟩) (fun _ => none) [7] = [7] ∧
    optimize_image (fun _ => some ⟨"RGBA", 4096, 1024⟩)
        (fun i => some [i.width, i.height]) [7] = [2048, 512] :=
  ⟨(optimize_image_best_effort _ _ _).1 rfl,
   (optimize_image_best_effort _ _ _).2.1 ⟨"RGBA", 4096, 1024⟩ rfl (by decide),
   ((optimize_image_best_effort _ _ _).2.2 ⟨"RGBA", 4096, 1024⟩ [2048, 512] rfl (by decide)).1⟩

/-- C5: `_process_pdf` routes on the stripped native text length: under
50 characters the result is exactly the scanned-PDF OCR fallback; at 50
or more it is the native extraction (stripped text, native confidence
policy, native page count). -/
theorem process_pdf_path_selection :
    ∀ (vision : Bytes → String) (doc : PdfDoc),
      (pyLen (pyStrip (nativeExtractedText doc)) < 50 →
          process_pdf vision doc = process_scanned_pdf vision doc) ∧
      (50 ≤ pyLen (pyStrip (nativeExtractedText doc)) →
          process_pdf vision doc =
            { text := pyStrip (nativeExtractedText doc)
              confidence :=
                if 100 < pyLen (nativeExtractedText doc) then mkRat 95 100 else mkRat 7 10
              page_count := doc.pages.length }) := by
  intro vision doc
  constructor
  · intro h
    simp [process_pdf, h]
  · intro h
    simp [process_pdf, Nat.not_lt.mpr h]

/-- C5 witness: a 4-character native text goes to the OCR fallback; a
75-character native text is returned natively. -/
theorem process_pdf_path_selection_witness :
    process_pdf (fun _ => "ocr output") docShortNative =
        process_scanned_pdf (fun _ => "ocr output") docShortNative ∧
    process_pdf (fun _ => "ocr output") docLongNative =
      { text := pyStrip (nativeExtractedText docLongNative)
        confidence :=
          if 100 < pyLen (nativeExtractedText docLongNative) then mkRat 95 100 else mkRat 7 10
        page_count := docLongNative.pages.length } :=
  ⟨(process_pdf_path_selection _ _).1 (by decide),
   (process_pdf_path_selection _ _).2 (by decide)⟩

/-- The scanned-path confidence is one of the two policy constants, both
within `[0,1]`. -/
theorem process_scanned_pdf_conf_bounds (vision : Bytes → String) (doc : PdfDoc) :
    0 ≤ (process_scanned_pdf vision doc).confidence ∧
      (process_scanned_pdf vision doc).confidence ≤ 1 := by
  unfold process_scanned_pdf
  by_cases h : 100 < pyLen (ocrExtractedText vision doc) <;> simp [h] <;> constructor

/-- The PDF-path confidence (native or fallback) is within `[0,1]`. -/
theorem process_pdf_conf_bounds (vision : Bytes → String) (doc : PdfDoc) :
    0 ≤ (process_pdf vision doc).confidence ∧ (process_pdf vision doc).confidence ≤ 1 := by
  unfold process_pdf
  by_cases hsel : pyLen (pyStrip (nativeExtractedText doc)) < 50
  · simpa [hsel] using process_scanned_pdf_conf_bounds vision doc
  · by_cases h2 : 100 < pyLen (nativeExtractedText doc) <;>
      simp [hsel, h2] <;> constructor

/-- The single-image confidence is within `[0,1]`. -/
theorem process_image_conf_bounds (vision : Bytes → String)
    (decode : Bytes → Option PILImage) (encode : PILImage → Option Bytes) (content : Bytes) :
    0 ≤ (process_image_with_claude vision decode encode content).confidence ∧
      (process_image_with_claude vision decode encode content).confidence ≤ 1 := by
  unfold process_image_with_claude
  by_cases h : 50 < pyLen (extract_text_with_claude_vision vision
      (optimize_image decode encode content)) <;>
    simp [h] <;> constructor

/-- C6: every acquisition path computes its confidence by the documented
length formula — native PDF `0.95/0.7` at the 100-character threshold,
OCR-recovered PDF `0.85/0.6` at 100, single image `0.88/0.65` at 50 — and
every such confidence lies in `[0,1]`. -/
theorem acquisition_confidence_policy :
    (∀ (vision : Bytes → String) (doc : PdfDoc),
        50 ≤ pyLen (pyStrip (nativeExtractedText doc)) →
        (process_pdf vision doc).confidence =
          (if 100 < pyLen (nativeExtractedText doc) then mkRat 95 100 else mkRat 7 10)) ∧
    (∀ (vision : Bytes → String) (doc : PdfDoc),
        (process_scanned_pdf vision doc).confidence =
          (if 100 < pyLen (ocrExtractedText vision doc) then mkRat 85 100 else mkRat 6 10)) ∧
    (∀ (vision : Bytes → String) (decode : Bytes → Option PILImage)
        (encode : PILImage → Option Bytes) (content : Bytes),
        (process_image_with_claude vision decode encode content).confidence =
          (if 50 < pyLen (extract_text_with_claude_vision vision
              (optimize_image decode encode content))
            then mkRat 88 100 else mkRat 65 100)) ∧
    (∀ (vision : Bytes → String) (doc : PdfDoc),
        0 ≤ (process_pdf vision doc).confidence ∧ (process_pdf vision doc).confidence ≤ 1) ∧
    (∀ (vision : Bytes → String) (doc : PdfDoc),
        0 ≤ (process_scanned_pdf vision doc).confidence ∧
          (process_scanned_pdf vision doc).confidence ≤ 1) ∧
    (∀ (vision : Bytes → String) (decode : Bytes → Option PILImage)
        (encode : PILImage → Option Bytes) (content : Bytes),
        0 ≤ (process_image_with_claude vision decode encode content).confidence ∧
          (process_image_with_claude vision decode encode content).confidence ≤ 1) := by
  refine ⟨?_, fun _ _ => rfl, fun _ _ _ _ => rfl,
    process_pdf_conf_bounds, process_scanned_pdf_conf_bounds, process_image_conf_bounds⟩
  intro vision doc h
  simp [process_pdf, Nat.not_lt.mpr h]

/-- C6 witness: the 75-character native document takes the `0.7` branch of
the native formula. -/
theorem acquisition_confidence_policy_witness :
    (process_pdf (fun _ => "") docLongNative).confidence =
        (if 100 < pyLen (nativeExtractedText docLongNative)
          then mkRat 95 100 else mkRat 7 10) ∧
    (process_pdf (fun _ => "") docLongNative).confidence = mkRat 7 10 :=
  ⟨acquisition_confidence_policy.1 _ _ (by decide),
   (acquisition_confidence_policy.1 _ _ (by decide)).trans (by decide)⟩

/-- C3 counterexample: a scanned PDF rasterizing to 15 page images comes
back with `page_count = 15` (the full rasterized count), not the 10
actually OCR-processed as the claim states. -/
theorem process_pdf_pagecount_not_capped :
    (process_pdf (fun _ => "recovered page text") fifteenPageDoc).page_count = 15 ∧
    ¬ (process_pdf (fun _ => "recovered page text") fifteenPageDoc).page_count = 10 :=
  ⟨rfl, by decide⟩

/-- C3 amended: only the first 10 rasterized images are submitted to
vision OCR (the result does not depend on the vision capability beyond
them), but the returned `page_count` is the total rasterized image count,
not the number of OCR-processed pages. -/
theorem process_scanned_pdf_first_ten_only :
    (∀ (vision vision' : Bytes → String) (doc : PdfDoc),
        (∀ img ∈ doc.images.take 10, vision img = vision' img) →
        process_scanned_pdf vision doc = process_scanned_pdf vision' doc) ∧
    (∀ (vision : Bytes → String) (doc : PdfDoc),
        (process_scanned_pdf vision doc).page_count = doc.images.length) := by
  constructor
  · intro vision vision' doc h
    unfold process_scanned_pdf
    rw [show ocrExtractedText vision doc = ocrExtractedText vision' doc from by
      unfold ocrExtractedText
      rw [ocrPageParts_congr vision vision' _ 1 h]]
  · intro vision doc
    rfl

/-- C3 amended witness: two vision capabilities agreeing on the first 10
of 15 blank images give the same result, whose `page_count` is 15. -/
theorem process_scanned_pdf_first_ten_only_witness :
    process_scanned_pdf (fun _ => "a") fifteenPageDoc =
        process_scanned_pdf (fun b => if b = [] then "a" else "b") fifteenPageDoc ∧
    (process_scanned_pdf (fun _ => "a") fifteenPageDoc).page_count = 15 :=
  ⟨process_scanned_pdf_first_ten_only.1 _ _ _ (by decide),
   process_scanned_pdf_first_ten_only.2 _ _⟩

/-- C2: whenever the response parser returns a dictionary, its confidence
slot holds a numeric value in `[0,1]`; a decoded payload whose
`confidence_score` is absent, or is a number outside `[0,1]`, yields
exactly `0.5`; an undecodable payload yields the exact fallback
dictionary — confidence `0.1`, the fixed failure-marker summary, empty
collections and null optionals. -/
theorem parse_confidence_policy :
    ∀ reply : String,
      (∀ d, parse_analysis_response reply = .ok d →
          ∃ q : Rat, scoreValue d.confidence_score = some q ∧ 0 ≤ q ∧ q ≤ 1) ∧
      (∀ kvs, jsonLoads (extractJsonCandidate reply) = some (.obj kvs) →
          (jget kvs "confidence_score" = none ∨
            ∃ q : Rat, jget kvs "confidence_score" = some (.num q) ∧ ¬(0 ≤ q ∧ q ≤ 1)) →
          ∃ d, parse_analysis_response reply = .ok d ∧
            d.confidence_score = .num (mkRat 1 2)) ∧
      (jsonLoads (extractJsonCandidate reply) = none →
          parse_analysis_response reply = .ok fallbackAnalysis) := by
  intro reply
  refine ⟨?_, ?_, ?_⟩
  · -- every returned dictionary carries an in-range numeric confidence
    intro d hd
    cases hjl : jsonLoads (extractJsonCandidate reply) with
    | none =>
        simp [parse_analysis_response, hjl] at hd
        subst hd
        exact ⟨mkRat 1 10, rfl, by decide, by decide⟩
    | some v =>
        cases v with
        | obj kvs =>
            cases hpw : pyWithin01 (buildAnalysisDict kvs).confidence_score with
            | none => simp [parse_analysis_response, hjl, hpw] at hd
            | some b =>
                cases b with
                | true =>
                    simp [parse_analysis_response, hjl, hpw] at hd
                    subst hd
                    cases hcs : (buildAnalysisDict kvs).confidence_score with
                    | num q =>
                        rw [hcs] at hpw
                        simp only [pyWithin01, Option.some.injEq] at hpw
                        have hin : 0 ≤ q ∧ q ≤ 1 := of_decide_eq_true hpw
                        exact ⟨q, rfl, hin⟩
                    | bool bb =>
                        refine ⟨if bb then 1 else 0, rfl, ?_⟩
                        cases bb <;> constructor <;> norm_num
                    | nan => rw [hcs] at hpw; simp [pyWithin01] at hpw
                    | inf neg => rw [hcs] at hpw; simp [pyWithin01] at hpw
                    | null => rw [hcs] at hpw; simp [pyWithin01] at hpw
                    | str s => rw [hcs] at hpw; simp [pyWithin01] at hpw
                    | arr es => rw [hcs] at hpw; simp [pyWithin01] at hpw
                    | obj ms => rw [hcs] at hpw; simp [pyWithin01] at hpw
                | false =>
                    simp [parse_analysis_response, hjl, hpw] at hd
                    subst hd
                    exact ⟨mkRat 1 2, rfl, by decide, by decide⟩
        | null => simp [parse_analysis_response, hjl] at hd
        | bool b => simp [parse_analysis_response, hjl] at hd
        | num q => simp [parse_analysis_response, hjl] at hd
        | nan => simp [parse_analysis_response, hjl] at hd
        | inf neg => simp [parse_analysis_response, hjl] at hd
        | str s => simp [parse_analysis_response, hjl] at hd
        | arr es => simp [parse_analysis_response, hjl] at hd
  · -- absent or numerically out-of-range score becomes exactly 0.5
    intro kvs hjl hcase
    have hfield : (buildAnalysisDict kvs).confidence_score =
        jgetD kvs "confidence_score" (.num (mkRat 1 2)) := rfl
    rcases hcase with habs | ⟨q, hpres, hout⟩
    · have hval : (buildAnalysisDict kvs).confidence_score = .num (mkRat 1 2) := by
        rw [hfield]; unfold jgetD; rw [habs]; rfl
      have hpw : pyWithin01 (buildAnalysisDict kvs).confidence_score = some true := by
        rw [hval]; rfl
      exact ⟨buildAnalysisDict kvs, by simp [parse_analysis_response, hjl, hpw], hval⟩
    · have hval : (buildAnalysisDict kvs).confidence_score = .num q := by
        rw [hfield]; unfold jgetD; rw [hpres]; rfl
      have hpw : pyWithin01 (buildAnalysisDict kvs).confidence_score = some false := by
        rw [hval]
        simp only [pyWithin01, Option.some.injEq]
        exact decide_eq_false hout
      exact ⟨{ buildAnalysisDict kvs with confidence_score := .num (mkRat 1 2) },
        by simp [parse_analysis_response, hjl, hpw], rfl⟩
  · -- undecodable payload: the exact fallback dictionary
    intro h
    simp [parse_analysis_response, h]

/-- C2 witness: a decoded payload with score `1.7` comes back with score
exactly `0.5`, and a brace-free prose reply yields the exact fallback. -/
theorem parse_confidence_policy_witness :
    (∃ d, parse_analysis_response "\x7b\"confidence_score\": 1.7\x7d" = .ok d ∧
        d.confidence_score = .num (mkRat 1 2)) ∧
    parse_analysis_response "Sorry, I cannot process this." = .ok fallbackAnalysis :=
  ⟨(parse_confidence_policy _).2.1 [("confidence_score", .num (mkRat 17 10))] rfl
      (Or.inr ⟨mkRat 17 10, rfl, by decide⟩),
   (parse_confidence_policy _).2.2 rfl⟩

/-- C1 counterexample: the reply `"5"` has no braces, so the whole reply
is the payload; it decodes to the integer `5`, on which `data.get(...)`
raises `AttributeError`.  Only `json.JSONDecodeError` is caught, so the
exception escapes the parse stage (and `analyze_warranty` re-raises it) —
the parse does not return a well-formed result for every reply. -/
theorem parseReply_raises_on_nonobject :
    parseReply "5" = .error .attributeError := rfl

/-- C1 amended: the parse stage returns a well-formed result without
raising whenever the payload fails to decode (the degraded fallback
result) or decodes to a JSON object whose fields are well-typed and whose
confidence slot, after defaulting, holds a number or a non-finite
constant; a reply decoding to a non-object JSON value raises
`AttributeError` outward, a non-numeric confidence value raises
`TypeError`, and a null/mistyped typed field raises a validation error. -/
theorem parseReply_wellTyped_total :
    ∀ reply : String,
      (jsonLoads (extractJsonCandidate reply) = none →
          parseReply reply = .ok typedFallback) ∧
      (∀ kvs, jsonLoads (extractJsonCandidate reply) = some (.obj kvs) →
          dictWellTyped (buildAnalysisDict kvs) = true →
          scoreFieldOk (buildAnalysisDict kvs).confidence_score = true →
          ∃ res, parseReply reply = .ok res) := by
  intro reply
  constructor
  · intro h
    have hp : parse_analysis_response reply = .ok fallbackAnalysis := by
      simp [parse_analysis_response, h]
    simp only [parseReply, hp]
    rfl
  · intro kvs hjl hwt hsf
    cases hcs : (buildAnalysisDict kvs).confidence_score with
    | num q =>
        by_cases hin : 0 ≤ q ∧ q ≤ 1
        · have hpw : pyWithin01 (buildAnalysisDict kvs).confidence_score = some true := by
            rw [hcs]
            simp only [pyWithin01, Option.some.injEq]
            exact decide_eq_true hin
          have hp : parse_analysis_response reply = .ok (buildAnalysisDict kvs) := by
            simp [parse_analysis_response, hjl, hpw]
          obtain ⟨res, hres⟩ :=
            mkClaudeAnalysisResult_total (buildAnalysisDict kvs) hwt q hcs hin.1 hin.2
          exact ⟨res, by simp [parseReply, hp, hres]⟩
        · have hpw : pyWithin01 (buildAnalysisDict kvs).confidence_score = some false := by
            rw [hcs]
            simp only [pyWithin01, Option.some.injEq]
            exact decide_eq_false hin
          have hp : parse_analysis_response reply =
              .ok { buildAnalysisDict kvs with confidence_score := .num (mkRat 1 2) } := by
            simp [parse_analysis_response, hjl, hpw]
          obtain ⟨res, hres⟩ :=
            mkClaudeAnalysisResult_total
              { buildAnalysisDict kvs with confidence_score := .num (mkRat 1 2) }
              hwt (mkRat 1 2) rfl (by decide) (by decide)
          exact ⟨res, by simp [parseReply, hp, hres]⟩
    | nan =>
        have hpw : pyWithin01 (buildAnalysisDict kvs).confidence_score = some false := by
          rw [hcs]; rfl
        have hp : parse_analysis_response reply =
            .ok { buildAnalysisDict kvs with confidence_score := .num (mkRat 1 2) } := by
          simp [parse_analysis_response, hjl, hpw]
        obtain ⟨res, hres⟩ :=
          mkClaudeAnalysisResult_total
            { buildAnalysisDict kvs with confidence_score := .num (mkRat 1 2) }
            hwt (mkRat 1 2) rfl (by decide) (by decide)
        exact ⟨res, by simp [parseReply, hp, hres]⟩
    | inf neg =>
        have hpw : pyWithin01 (buildAnalysisDict kvs).confidence_score = some false := by
          rw [hcs]; rfl
        have hp : parse_analysis_response reply =
            .ok { buildAnalysisDict kvs with confidence_score := .num (mkRat 1 2) } := by
          simp [parse_analysis_response, hjl, hpw]
        obtain ⟨res, hres⟩ :=
          mkClaudeAnalysisResult_total
            { buildAnalysisDict kvs with confidence_score := .num (mkRat 1 2) }
            hwt (mkRat 1 2) rfl (by decide) (by decide)
        exact ⟨res, by simp [parseReply, hp, hres]⟩
    | null => rw [hcs] at hsf; simp [scoreFieldOk] at hsf
    | bool b => rw [hcs] at hsf; simp [scoreFieldOk] at hsf
    | str s => rw [hcs] at hsf; simp [scoreFieldOk] at hsf
    | arr es => rw [hcs] at hsf; simp [scoreFieldOk] at hsf
    | obj ms => rw [hcs] at hsf; simp [scoreFieldOk] at hsf

/-- C1 amended witness: a brace-free prose reply produces the typed
fallback result, and a well-typed object payload produces a result,
neither raising. -/
theorem parseReply_wellTyped_total_witness :
    parseReply "unparseable reply" = .ok typedFallback ∧
    (∃ res, parseReply "\x7b\"summary\": \"ok\"\x7d" = .ok res) :=
  ⟨(parseReply_wellTyped_total "unparseable reply").1 rfl,
   (parseReply_wellTyped_total "\x7b\"summary\": \"ok\"\x7d").2
     [("summary", .str "ok")] rfl rfl rfl⟩

/-! ### Concrete sanity checks of the embedding -/

example : jsonLoads "null" = some .null := rfl

example : jsonLoads " \x7b \x7d " = some (.obj []) := rfl

example : jsonLoads "\x7b\"a\": 1, \"a\": 2.5\x7d" =
    some (.obj [("a", .num (mkRat 1 1)), ("a", .num (mkRat 5 2))]) := rfl

example : jget [("a", Json.num (mkRat 1 1)), ("a", Json.num (mkRat 5 2))] "a" = some (.num (mkRat 5 2)) := rfl

example : jsonLoads "Sorry, I cannot process this." = none := rfl

example : jsonLoads "[1, -2e1, 0.25, true]" =
    some (.arr [.num (mkRat 1 1), .num (mkRat (-20) 1), .num (mkRat 1 4), .bool true]) := rfl

example : jsonLoads "01" = none := rfl

example : jsonLoads "\"a\\nb\"" = some (.str "a\nb") := rfl

example : jsonLoads "-Infinity" = some (.inf true) := rfl

example : extractJsonCandidate "noise \x7b\"a\": 1\x7d tail" = "\x7b\"a\": 1\x7d" := rfl

example : extractJsonCandidate "no braces at all" = "no braces at all" := rfl

example : extractJsonCandidate "\x7d only close then \x7b" = "\x7d only close then \x7b" := rfl

example : parseReply "Sorry, I cannot process this." = .ok typedFallback := rfl

example : parseReply "5" = .error .attributeError := rfl

example : parseReply "\x7b\"summary\": null\x7d" = .error .validationError := rfl

example : parseReply "\x7b\"confidence_score\": null\x7d" = .error .typeError := rfl

example :
    parse_analysis_response "\x7b\"confidence_score\": 1.7\x7d" =
      .ok { buildAnalysisDict [("confidence_score", .num (mkRat 17 10))] with
              confidence_score := .num (mkRat 1 2) } := rfl

example : extract_warranty_dates (some 24) (some 100) 0 = (some 100, some 820) := rfl

example : extract_warranty_dates none (some 100) 0 = (none, none) := rfl

example : pageMarker 2 "hi" = "--- Page 2 ---\nhi" := rfl

example :
    (process_pdf (fun _ => "ocr") { pages := ["a", ""], images := [[0], [1]] }).page_count = 2 := by
  decide

example :
    (process_scanned_pdf (fun _ => "ocr") { pages := [], images := List.replicate 15 [] }).page_count
      = 15 := rfl
